import Mathlib

/-
Verification of the configuration-resolution and run-orchestration layer of
the bandit CLI (src/bandit/cli/main.py), as a shallow embedding in Lean 4.

The embedding models the Python values that flow through the option
resolver, the resolver itself, profile construction, the severity and
confidence level mapping, ini-file discovery, and the orchestration sequence
of main() from ini discovery to the final process exit code.
-/

namespace BanditCli

/-- Model of the Python values that flow through option resolution in
main.py: None, strings, ints and booleans. -/
inductive Value where
  | none
  | str (s : String)
  | int (n : Int)
  | bool (b : Bool)
deriving DecidableEq, Repr

/-- Python truthiness for the modelled values: None is falsy, a string is
truthy iff nonempty, an int iff nonzero, a bool is itself. -/
def Value.truthy : Value → Bool
  | .none => false
  | .str s => s != ""
  | .int n => n != 0
  | .bool b => b

/-- Python equality (==) for the modelled values. Values of distinct types
are unequal, except that booleans compare equal to the ints 0 and 1
(True == 1 and False == 0 in Python). None is == only to None. -/
def Value.pyEq : Value → Value → Bool
  | .none, .none => true
  | .str a, .str b => a == b
  | .int a, .int b => a == b
  | .bool a, .bool b => a == b
  | .bool a, .int b => (if a then (1 : Int) else 0) == b
  | .int a, .bool b => a == (if b then (1 : Int) else 0)
  | _, _ => false

/-- Python str() for the modelled values, as used when writing the
BANDIT_NO_LINES environment variable (main.py line 464). -/
def Value.pyStr : Value → String
  | .none => "None"
  | .str s => s
  | .int n => toString n
  | .bool b => if b then "True" else "False"

/-- Embedding of _log_option_source (main.py lines 84-101): resolve one
option from its schema default, the argument-source value and the ini-file
value. When the default is None (defaultless option) the first truthy of
arg value and ini value wins, else the result is None. When a default
exists: if the arg value == the default, a truthy ini value wins, else the
arg value stands; if the arg value differs from the default, the arg value
wins unconditionally. -/
def logOptionSource (default_val arg_val ini_val : Value) : Value :=
  if default_val = Value.none then
    if arg_val.truthy then arg_val
    else if ini_val.truthy then ini_val
    else Value.none
  else if Value.pyEq default_val arg_val then
    (if ini_val.truthy then ini_val else arg_val)
  else arg_val

/-- Auxiliary recursion for pySplitComma over the character list. -/
def splitCommaAux : List Char → List String
  | [] => [""]
  | c :: cs =>
    if c = ',' then "" :: splitCommaAux cs
    else
      match splitCommaAux cs with
      | [] => [String.mk [c]]
      | h :: t => String.mk (c :: h.toList) :: t

/-- Embedding of the Python string method split(",") as used on the CLI
test and skip lists (main.py lines 631-632): splits on every comma and
keeps empty fragments, so that the empty string splits to [""]. -/
def pySplitComma (s : String) : List String :=
  splitCommaAux s.toList

/-- A bandit profile: a set of included and a set of excluded test ids
(the dict with keys "include" and "exclude" built by _get_profile). -/
structure ProfileData where
  includeTests : Finset String
  excludeTests : Finset String
deriving DecidableEq

/-- The slice of the loaded BanditConfig consumed by _get_profile: the raw
"tests" and "skips" option lists and the named "profiles" mapping. A None
field models config.get_option returning None. -/
structure ConfigModel where
  tests : Option (List String)
  skips : Option (List String)
  profiles : Option (List (String × ProfileData))

/-- Embedding of _get_profile (main.py lines 111-122): a truthy profile
name is looked up in the "profiles" mapping (absence raises
ProfileNotFound, modelled as Option.none); otherwise an ad hoc profile is
built from the "tests" and "skips" config options, with None treated as
the empty list. -/
def getProfile (config : ConfigModel) (profile_name : Option String) : Option ProfileData :=
  match profile_name with
  | some s =>
    if s ≠ "" then (config.profiles.getD []).lookup s
    else some ⟨(config.tests.getD []).toFinset, (config.skips.getD []).toFinset⟩
  | Option.none =>
    some ⟨(config.tests.getD []).toFinset, (config.skips.getD []).toFinset⟩

/-- The set of test ids contributed by a comma-separated CLI list
(main.py lines 631-632): a falsy value (absent option or empty string)
contributes nothing, otherwise the value is split on commas. -/
def cliList (v : Option String) : Finset String :=
  match v with
  | some s => if s ≠ "" then (pySplitComma s).toFinset else ∅
  | Option.none => ∅

/-- Embedding of the profile construction in main (main.py lines 628-632):
_get_profile, then the CLI tests and skips lists are unioned into the
include and exclude sets (set.update in the source). -/
def buildFinalProfile (config : ConfigModel)
    (profile_name tests skips : Option String) : Option ProfileData :=
  match getProfile config profile_name with
  | some p => some ⟨p.includeTests ∪ cliList tests, p.excludeTests ∪ cliList skips⟩
  | Option.none => Option.none

/-- Modelled from the spec: bandit.core.constants.RANKING is outside the
visible source; the spec describes the RankingScale as the ordered tier
sequence UNDEFINED < LOW < MEDIUM < HIGH, indexed at ordinal - 1
(main.py lines 689-690). -/
def RANKING : List String := ["UNDEFINED", "LOW", "MEDIUM", "HIGH"]

/-- Modelled from the spec: the argparse count action applied to the -l /
-i flags (main.py lines 229-237 and 249-257, default=1) is outside the
visible source; per the spec each repetition raises the ordinal by one
above the default ordinal 1. -/
def countOrdinal (repetitions : Nat) : Nat :=
  1 + repetitions

/-- Embedding of the named-level override (main.py lines 441-461, the same
shape for severity and confidence): a present named string replaces the
count-based ordinal by all = 1, low = 2, medium = 3, high = 4; other
strings are blocked by argparse and leave the ordinal unchanged. -/
def applyLevelString (level : Nat) (level_string : Option String) : Nat :=
  match level_string with
  | some s =>
    if s = "all" then 1
    else if s = "low" then 2
    else if s = "medium" then 3
    else if s = "high" then 4
    else level
  | Option.none => level

/-- Embedding of the threshold-label computation (main.py lines 689-690):
RANKING[ordinal - 1]. An out-of-range index, which raises IndexError in
Python, is modelled as Option.none. -/
def levelLabel (ordinal : Nat) : Option String :=
  RANKING[ordinal - 1]?

/-- Outcome of _get_options_from_ini: a usage error listing every
discovered .bandit file (sys.exit(2)), adoption of a single file (whose
parsed options are then used), or no ini options at all. -/
inductive IniResult where
  | usageError (paths : List String)
  | adopted (path : String)
  | noIni
deriving DecidableEq, Repr

/-- The .bandit files collected by the nested walk loop in
_get_options_from_ini (main.py lines 53-58): the filesystem walk is
external, so it is abstracted as a function from each target root to the
matching file paths found beneath it, appended in target order. -/
def iniWalkFiles (targets : List String) (walk : String → List String) : List String :=
  (targets.map walk).flatten

/-- Embedding of _get_options_from_ini (main.py lines 46-75): an explicit
ini path is used unconditionally; otherwise the walk results decide:
more than one file is a usage error listing all of them, exactly one file
is adopted, zero files contribute no options. -/
def getOptionsFromIni (ini_path : Option String) (targets : List String)
    (walk : String → List String) : IniResult :=
  match ini_path with
  | some p => IniResult.adopted p
  | Option.none =>
    let banditFiles := iniWalkFiles targets walk
    if 1 < banditFiles.length then IniResult.usageError banditFiles
    else
      match banditFiles with
      | [f] => IniResult.adopted f
      | _ => IniResult.noIni

/-- Observable events of the orchestration sequence of main() from ini
discovery (main.py line 473) to the final sys.exit (lines 700-706). -/
inductive Event where
  | iniDiscovery
  | usagePrint
  | profileResolve
  | baselineRead
  | baselineFormatCheck
  | discoverFiles
  | noTestsCheck
  | runTests
  | outputResults
  | exit (code : Nat)
deriving DecidableEq, Repr

/-- The resolved argument values that drive the orchestration sequence
(after option resolution against the ini file). -/
structure Args where
  targets : List String
  baseline : Option String
  outputFormat : String
  exitZero : Bool

/-- The external collaborators of main(), abstracted: whether profile
resolution and validation succeed (lines 627-637), whether opening the
baseline file succeeds (lines 650-653), the baseline-capable formatter
names (lines 145-151), whether any tests remain after discovery
(line 679), and the filtered issue count (line 701). -/
structure RunEnv where
  profileValid : Bool
  baselineReadable : Bool
  baselineFormatters : List String
  testsAfterDiscovery : Bool
  resultsCount : Nat

/-- Embedding of the final exit-code computation (main.py lines 700-706):
exit 1 when the filtered issue count is positive and --exit-zero was not
given, else exit 0. -/
def exitCodeFinal (results_count : Nat) (exit_zero : Bool) : Nat :=
  if 0 < results_count ∧ exit_zero = false then 1 else 0

/-- The tail of main() from file discovery onward (main.py lines 677-706):
discover files, fail with exit 2 when no tests would be run, otherwise run
the tests, output the results and exit with the computed code. -/
def scanTail (env : RunEnv) (args : Args) : List Event :=
  Event.discoverFiles ::
    if env.testsAfterDiscovery then
      [Event.noTestsCheck, Event.runTests, Event.outputResults,
       Event.exit (exitCodeFinal env.resultsCount args.exitZero)]
    else
      [Event.noTestsCheck, Event.exit 2]

/-- The baseline block of main() (main.py lines 649-663), which runs
BEFORE file discovery: with a resolved baseline path, an unreadable file
exits 2, and an output format outside the baseline-capable set exits 2;
otherwise (and with no baseline at all) control reaches the scan tail. -/
def baselineStep (env : RunEnv) (args : Args) : List Event :=
  match args.baseline with
  | Option.none => scanTail env args
  | some _ =>
    if env.baselineReadable then
      if args.outputFormat ∈ env.baselineFormatters then
        Event.baselineRead :: Event.baselineFormatCheck :: scanTail env args
      else
        [Event.baselineRead, Event.baselineFormatCheck, Event.exit 2]
    else
      [Event.baselineRead, Event.exit 2]

/-- The part of main() after ini option resolution (main.py lines
615-706): empty resolved target list prints usage and exits 2; a failed
profile resolution or validation exits 2; then the baseline block and the
scan tail follow. -/
def mainTail (env : RunEnv) (args : Args) : List Event :=
  if args.targets.isEmpty then
    [Event.usagePrint, Event.exit 2]
  else if env.profileValid then
    Event.profileResolve :: baselineStep env args
  else
    [Event.profileResolve, Event.exit 2]

/-- The orchestration sequence of main() from ini discovery (main.py line
473) to the final exit: an ambiguous ini discovery exits 2 inside
_get_options_from_ini before anything else runs, otherwise the run
continues with the resolved arguments. -/
def runMain (env : RunEnv) (args : Args) (ini_result : IniResult) : List Event :=
  match ini_result with
  | IniResult.usageError _ => [Event.iniDiscovery, Event.exit 2]
  | _ => Event.iniDiscovery :: mainTail env args

/-- The exit code a trace terminates with, when its last event is an
exit. -/
def exitOf : List Event → Option Nat
  | [] => Option.none
  | [Event.exit n] => some n
  | [_] => Option.none
  | _ :: e :: rest => exitOf (e :: rest)

/-- Embedding of the BANDIT_NO_LINES environment write (main.py lines
463-464), which happens right after argument parsing and BEFORE ini
option resolution: when the parsed no-line-numbers value is not None, the
variable is set to str() of that value. -/
def banditNoLinesEnvWrite (no_line_numbers : Value) : Option String :=
  if no_line_numbers ≠ Value.none then some no_line_numbers.pyStr
  else Option.none

/-- Embedding of the no-line-numbers resolution step (main.py lines
608-613): the source passes args.baseline, not args.no_line_numbers, as
the supplied comparand of _log_option_source, with the no-line-numbers
schema default False. The parsed no-line-numbers value is taken as a
parameter to make its absence from the computation explicit. -/
def resolveNoLineNumbers (baseline no_line_numbers ini_no_line_numbers : Value) : Value :=
  logOptionSource (Value.bool false) baseline ini_no_line_numbers

/-- The no-line-numbers data flow of one run (main.py lines 463-464,
473 and 608-613): the environment variable is written from the raw parsed
value before ini resolution; the resolved value is produced afterward
(only when ini options are present) and the environment is not updated. -/
def noLineNumbersRun (no_line_numbers baseline : Value) (ini_present : Bool)
    (ini_no_line_numbers : Value) : Option String × Value :=
  (banditNoLinesEnvWrite no_line_numbers,
   if ini_present then resolveNoLineNumbers baseline no_line_numbers ini_no_line_numbers
   else no_line_numbers)

end BanditCli

namespace BanditCli

/-- C2: the claim as stated says that for defaulted options, when the
supplied value equals the default and an ini value is PRESENT, the ini
value is used. The code only uses a TRUTHY ini value: with default "file",
supplied "file" and a present but empty ini value "", the resolver returns
"file", not the present ini value "". -/
theorem c2_present_ini_counterexample :
    logOptionSource (Value.str "file") (Value.str "file") (Value.str "") ≠ Value.str ""
      ∧ (Value.str "" : Value) ≠ Value.none := by
  constructor <;> decide

/-- Python equality on the modelled values is symmetric. -/
lemma pyEq_symm (x y : Value) (h : Value.pyEq x y = true) :
    Value.pyEq y x = true := by
  cases x <;> cases y <;> simp_all [Value.pyEq]

/-- C2 (amended): for every defaulted option (non-None default): a supplied
value that differs (under Python ==) from the default wins regardless of
the ini value; if the supplied value equals the default and the ini value
is truthy, the ini value wins; if the supplied value equals the default
and the ini value is absent or falsy, the supplied value (== the default)
stands. -/
theorem c2_defaulted_resolution (d a i : Value) (hd : d ≠ Value.none) :
    (Value.pyEq d a = false → logOptionSource d a i = a)
      ∧ (Value.pyEq d a = true → i.truthy = true → logOptionSource d a i = i)
      ∧ (Value.pyEq d a = true → i.truthy = false →
          logOptionSource d a i = a ∧ Value.pyEq (logOptionSource d a i) d = true) := by
  refine ⟨?_, ?_, ?_⟩
  · intro hne
    simp [logOptionSource, hd, hne]
  · intro heq htr
    simp [logOptionSource, hd, heq, htr]
  · intro heq htr
    have h1 : logOptionSource d a i = a := by
      simp [logOptionSource, hd, heq, htr]
    refine ⟨h1, ?_⟩
    rw [h1]
    exact pyEq_symm d a heq

/-- C2 witness: the amended defaulted-option resolution evaluated at the
concrete inputs default "file", supplied "vuln", ini "file". -/
theorem c2_defaulted_resolution_witness :
    logOptionSource (Value.str "file") (Value.str "vuln") (Value.str "file")
      = Value.str "vuln" :=
  (c2_defaulted_resolution (Value.str "file") (Value.str "vuln") (Value.str "file")
    (by decide)).1 (by decide)

/-- C3: for every defaultless option (None default): a truthy supplied
value wins; otherwise a truthy ini value wins; otherwise the option
resolves to None (unset). This is exactly the first branch of
_log_option_source. -/
theorem c3_defaultless_resolution (a i : Value) :
    (a.truthy = true → logOptionSource Value.none a i = a)
      ∧ (a.truthy = false → i.truthy = true → logOptionSource Value.none a i = i)
      ∧ (a.truthy = false → i.truthy = false →
          logOptionSource Value.none a i = Value.none) := by
  refine ⟨?_, ?_, ?_⟩
  · intro h
    simp [logOptionSource, h]
  · intro h h2
    simp [logOptionSource, h, h2]
  · intro h h2
    simp [logOptionSource, h, h2]

/-- C3 witness: the defaultless resolution evaluated at concrete inputs
supplied "B101" (truthy) and ini "B102". -/
theorem c3_defaultless_resolution_witness :
    logOptionSource Value.none (Value.str "B101") (Value.str "B102")
      = Value.str "B101" :=
  (c3_defaultless_resolution (Value.str "B101") (Value.str "B102")).1 (by decide)

/-- C4: for every loaded configuration, with CLI tests "B101,B102", CLI
skips "B103" and no profile name, profile construction succeeds and the
final include set contains B101 and B102, the final exclude set contains
B103, and the configuration-derived include and exclude sets are both
preserved (the CLI lists are unioned in additively, never removed). -/
theorem c4_profile_union (config : ConfigModel) :
    ∃ q, buildFinalProfile config Option.none (some "B101,B102") (some "B103") = some q
      ∧ ({"B101", "B102"} : Finset String) ⊆ q.includeTests
      ∧ ({"B103"} : Finset String) ⊆ q.excludeTests
      ∧ (config.tests.getD []).toFinset ⊆ q.includeTests
      ∧ (config.skips.getD []).toFinset ⊆ q.excludeTests := by
  refine ⟨_, rfl, ?_, ?_, ?_, ?_⟩
  · exact Finset.Subset.trans
      (by decide : ({"B101", "B102"} : Finset String) ⊆ cliList (some "B101,B102"))
      Finset.subset_union_right
  · exact Finset.Subset.trans
      (by decide : ({"B103"} : Finset String) ⊆ cliList (some "B103"))
      Finset.subset_union_right
  · exact Finset.subset_union_left
  · exact Finset.subset_union_left

/-- C5: the claim as stated says that the named string "high" and FOUR
repetitions of the count flag starting from the schema default 1 produce
the identical ordinal and label. They do not: four repetitions give
ordinal 5, while "high" gives ordinal 4 with label HIGH; ordinal 5 indexes
RANKING out of range (no label, IndexError in Python). -/
theorem c5_four_repetitions_counterexample :
    countOrdinal 4 = 5
      ∧ applyLevelString (countOrdinal 0) (some "high") = 4
      ∧ countOrdinal 4 ≠ applyLevelString (countOrdinal 0) (some "high")
      ∧ levelLabel (applyLevelString (countOrdinal 0) (some "high")) = some "HIGH"
      ∧ levelLabel (countOrdinal 4) = Option.none := by
  decide

/-- C5 (amended): the named string "high" and THREE repetitions of the
count flag starting from the schema default 1 produce the identical
ordinal 4 and the identical RankingScale label HIGH, on both axes (the
severity and confidence blocks share applyLevelString and RANKING). -/
theorem c5_named_high_equals_three_repetitions :
    applyLevelString (countOrdinal 0) (some "high") = countOrdinal 3
      ∧ levelLabel (countOrdinal 3) = some "HIGH"
      ∧ levelLabel (applyLevelString (countOrdinal 0) (some "high")) = some "HIGH" := by
  decide

/-- C6: the claim as stated says that for EVERY number of repetitions the
ordinal lies in 1..4 and the RANKING indexing is in bounds. Four
repetitions refute it: the ordinal is 5 and RANKING[5 - 1] is out of
range (RANKING has length 4), so the out-of-range case is reachable. -/
theorem c6_four_repetitions_out_of_range :
    ¬(countOrdinal 4 ≤ 4)
      ∧ RANKING.length ≤ countOrdinal 4 - 1
      ∧ levelLabel (countOrdinal 4) = Option.none := by
  decide

/-- C6 (amended): for at most three repetitions of the severity or
confidence count flag, the resulting ordinal lies between 1 and 4
inclusive and indexing RANKING at ordinal - 1 is in bounds; with four or
more repetitions the ordinal exceeds 4 and the indexing is out of range. -/
theorem c6_ordinal_bounds (repetitions : Nat) (h : repetitions ≤ 3) :
    1 ≤ countOrdinal repetitions ∧ countOrdinal repetitions ≤ 4
      ∧ (levelLabel (countOrdinal repetitions)).isSome = true := by
  refine ⟨by simp [countOrdinal], by simp [countOrdinal]; omega, ?_⟩
  interval_cases repetitions <;> decide

/-- C6 witness: the amended bound evaluated at two repetitions. -/
theorem c6_ordinal_bounds_witness :
    1 ≤ countOrdinal 2 ∧ countOrdinal 2 ≤ 4
      ∧ (levelLabel (countOrdinal 2)).isSome = true :=
  c6_ordinal_bounds 2 (by decide)

/-- A list containing two distinct members has length at least two. -/
lemma one_lt_length_of_two_mem {α : Type} {l : List α} {p q : α}
    (hp : p ∈ l) (hq : q ∈ l) (hne : p ≠ q) : 1 < l.length := by
  rcases l with _ | ⟨a, _ | ⟨b, t⟩⟩
  · cases hp
  · simp only [List.mem_singleton] at hp hq
    exact absurd (hp.trans hq.symm) hne
  · simp only [List.length_cons]
    omega

/-- Whenever the orchestration tail reports results, it terminates with
the exit code computed from the filtered issue count and the exit-zero
flag. -/
lemma exitOf_mainTail_of_outputResults (env : RunEnv) (args : Args)
    (h : Event.outputResults ∈ mainTail env args) :
    exitOf (mainTail env args) = some (exitCodeFinal env.resultsCount args.exitZero) := by
  by_cases ht : args.targets.isEmpty
  · simp [mainTail, ht] at h
  · by_cases hp : env.profileValid
    · rcases hb : args.baseline with _ | p
      · by_cases hts : env.testsAfterDiscovery
        · simp [mainTail, baselineStep, scanTail, exitOf, ht, hp, hb, hts]
        · simp [mainTail, baselineStep, scanTail, ht, hp, hb, hts] at h
      · by_cases hr : env.baselineReadable
        · by_cases hf : args.outputFormat ∈ env.baselineFormatters
          · by_cases hts : env.testsAfterDiscovery
            · simp [mainTail, baselineStep, scanTail, exitOf, ht, hp, hb, hr, hf, hts]
            · simp [mainTail, baselineStep, scanTail, ht, hp, hb, hr, hf, hts] at h
          · simp [mainTail, baselineStep, ht, hp, hb, hr, hf] at h
        · simp [mainTail, baselineStep, ht, hp, hb, hr] at h
    · simp [mainTail, ht, hp] at h

/-- The orchestration tail always emits at least one event. -/
lemma mainTail_ne_nil (env : RunEnv) (args : Args) : mainTail env args ≠ [] := by
  unfold mainTail
  split
  · simp
  · split <;> simp

/-- Prepending the ini-discovery event does not change the terminating
exit code of the orchestration tail. -/
lemma exitOf_cons_mainTail (env : RunEnv) (args : Args) :
    exitOf (Event.iniDiscovery :: mainTail env args) = exitOf (mainTail env args) := by
  rcases hmt : mainTail env args with _ | ⟨x, xs⟩
  · exact absurd hmt (mainTail_ne_nil env args)
  · simp [exitOf]

/-- C1: for every run that reaches the reporting stage (the trace contains
the output-results event), the process exit code is 1 when the filtered
issue count is positive and exit-zero was not requested, and 0 otherwise,
including when the count is positive but exit-zero is set. -/
theorem c1_reporting_exit_code (env : RunEnv) (args : Args) (ini_result : IniResult)
    (h : Event.outputResults ∈ runMain env args ini_result) :
    (0 < env.resultsCount ∧ args.exitZero = false →
        exitOf (runMain env args ini_result) = some 1)
      ∧ (¬(0 < env.resultsCount ∧ args.exitZero = false) →
        exitOf (runMain env args ini_result) = some 0) := by
  have key : exitOf (runMain env args ini_result)
      = some (exitCodeFinal env.resultsCount args.exitZero) := by
    cases ini_result with
    | usageError ps => simp [runMain] at h
    | adopted p =>
      have hm : Event.outputResults ∈ mainTail env args := by
        simpa [runMain] using h
      calc exitOf (runMain env args (IniResult.adopted p))
          = exitOf (mainTail env args) := exitOf_cons_mainTail env args
        _ = some (exitCodeFinal env.resultsCount args.exitZero) :=
            exitOf_mainTail_of_outputResults env args hm
    | noIni =>
      have hm : Event.outputResults ∈ mainTail env args := by
        simpa [runMain] using h
      calc exitOf (runMain env args IniResult.noIni)
          = exitOf (mainTail env args) := exitOf_cons_mainTail env args
        _ = some (exitCodeFinal env.resultsCount args.exitZero) :=
            exitOf_mainTail_of_outputResults env args hm
  constructor
  · intro hc
    rw [key]
    simp [exitCodeFinal, hc]
  · intro hc
    rw [key]
    simp only [exitCodeFinal, if_neg hc]

/-- C1 witness: a run with one qualifying issue and exit-zero unset
reaches reporting and exits 1. -/
theorem c1_reporting_exit_code_witness :
    exitOf (runMain ⟨true, true, [], true, 1⟩ ⟨["t"], Option.none, "txt", false⟩
        IniResult.noIni) = some 1 :=
  (c1_reporting_exit_code ⟨true, true, [], true, 1⟩ ⟨["t"], Option.none, "txt", false⟩
      IniResult.noIni (by decide)).1 (by decide)

/-- C7: with no explicit ini path, a walk that finds .bandit files at two
or more distinct paths makes discovery fail listing all discovered paths,
with exit code 2 and neither file discovery nor test execution in the
trace; exactly one found file is adopted; zero found files contribute no
ini options and the run continues into the ordinary tail. -/
theorem c7_ini_discovery (targets : List String) (walk : String → List String)
    (env : RunEnv) (args : Args) :
    ((∃ p q, p ∈ iniWalkFiles targets walk ∧ q ∈ iniWalkFiles targets walk ∧ p ≠ q) →
        getOptionsFromIni Option.none targets walk
            = IniResult.usageError (iniWalkFiles targets walk)
          ∧ exitOf (runMain env args (getOptionsFromIni Option.none targets walk)) = some 2
          ∧ Event.discoverFiles ∉ runMain env args (getOptionsFromIni Option.none targets walk)
          ∧ Event.runTests ∉ runMain env args (getOptionsFromIni Option.none targets walk))
      ∧ (∀ f, iniWalkFiles targets walk = [f] →
          getOptionsFromIni Option.none targets walk = IniResult.adopted f)
      ∧ (iniWalkFiles targets walk = [] →
          getOptionsFromIni Option.none targets walk = IniResult.noIni
            ∧ runMain env args IniResult.noIni
                = Event.iniDiscovery :: mainTail env args) := by
  refine ⟨?_, ?_, ?_⟩
  · rintro ⟨p, q, hp, hq, hne⟩
    have hlen : 1 < (iniWalkFiles targets walk).length :=
      one_lt_length_of_two_mem hp hq hne
    have hres : getOptionsFromIni Option.none targets walk
        = IniResult.usageError (iniWalkFiles targets walk) := by
      simp [getOptionsFromIni, hlen]
    refine ⟨hres, ?_, ?_, ?_⟩ <;> rw [hres] <;> simp [runMain, exitOf]
  · intro f hf
    simp [getOptionsFromIni, hf]
  · intro hf
    exact ⟨by simp [getOptionsFromIni, hf], rfl⟩

/-- C7 witness: two target roots each holding one .bandit file trigger the
ambiguity error, with exit code 2 and no file discovery. -/
theorem c7_ini_discovery_witness :
    getOptionsFromIni Option.none ["r1", "r2"]
        (fun t => if t = "r1" then ["r1/.bandit"]
          else if t = "r2" then ["r2/.bandit"] else [])
      = IniResult.usageError ["r1/.bandit", "r2/.bandit"]
      ∧ exitOf (runMain ⟨true, true, [], true, 0⟩ ⟨["x"], Option.none, "txt", false⟩
          (getOptionsFromIni Option.none ["r1", "r2"]
            (fun t => if t = "r1" then ["r1/.bandit"]
              else if t = "r2" then ["r2/.bandit"] else []))) = some 2 := by
  have h := (c7_ini_discovery ["r1", "r2"]
    (fun t => if t = "r1" then ["r1/.bandit"]
      else if t = "r2" then ["r2/.bandit"] else [])
    ⟨true, true, [], true, 0⟩ ⟨["x"], Option.none, "txt", false⟩).1
    ⟨"r1/.bandit", "r2/.bandit", by decide, by decide, by decide⟩
  exact ⟨h.1, h.2.1⟩

/-- C8: the claim as stated says the baseline-format incompatibility check
is performed after file discovery. At a concrete run with a resolved
baseline and a non-capable format, the trace exits 2 at the format check
and contains no file-discovery event at all, so the check happens before
discovery, not after. -/
theorem c8_order_counterexample :
    runMain ⟨true, true, ["json"], true, 0⟩
        ⟨["t"], some "base.json", "txt", false⟩ IniResult.noIni
      = [Event.iniDiscovery, Event.profileResolve, Event.baselineRead,
         Event.baselineFormatCheck, Event.exit 2]
      ∧ Event.discoverFiles ∉ runMain ⟨true, true, ["json"], true, 0⟩
          ⟨["t"], some "base.json", "txt", false⟩ IniResult.noIni
      ∧ Event.outputResults ∉ runMain ⟨true, true, ["json"], true, 0⟩
          ⟨["t"], some "base.json", "txt", false⟩ IniResult.noIni := by
  decide

/-- C8 (amended): with a resolved baseline path whose file is readable and
an output format outside the baseline-capable set, the run exits 2 before
any report is written and BEFORE file discovery; the no-executable-tests
check is the one exit-2 condition performed after discovery and before
test execution; and no exit-2 condition at all is detected after the scan
has started. -/
theorem c8_baseline_gate (env : RunEnv) (args : Args) (ini_result : IniResult) :
    (args.baseline.isSome = true → env.baselineReadable = true →
      args.outputFormat ∉ env.baselineFormatters → args.targets.isEmpty = false →
      env.profileValid = true → (∀ ps, ini_result ≠ IniResult.usageError ps) →
      runMain env args ini_result
        = [Event.iniDiscovery, Event.profileResolve, Event.baselineRead,
           Event.baselineFormatCheck, Event.exit 2])
      ∧ (env.testsAfterDiscovery = false →
        scanTail env args = [Event.discoverFiles, Event.noTestsCheck, Event.exit 2])
      ∧ (Event.exit 2 ∈ runMain env args ini_result →
        Event.runTests ∉ runMain env args ini_result) := by
  refine ⟨?_, ?_, ?_⟩
  · intro hb hr hf ht hp hi
    cases ini_result with
    | usageError ps => exact absurd rfl (hi ps)
    | adopted p =>
      rcases hbl : args.baseline with _ | b
      · rw [hbl] at hb
        cases hb
      · simp [runMain, mainTail, baselineStep, ht, hp, hbl, hr, hf]
    | noIni =>
      rcases hbl : args.baseline with _ | b
      · rw [hbl] at hb
        cases hb
      · simp [runMain, mainTail, baselineStep, ht, hp, hbl, hr, hf]
  · intro hts
    simp [scanTail, hts]
  · intro h2
    have hmt : Event.exit 2 ∈ mainTail env args → Event.runTests ∉ mainTail env args := by
      intro hm2
      by_cases ht : args.targets.isEmpty
      · simp [mainTail, ht]
      · by_cases hp : env.profileValid
        · rcases hb : args.baseline with _ | p
          · by_cases hts : env.testsAfterDiscovery
            · exfalso
              simp [mainTail, baselineStep, scanTail, ht, hp, hb, hts,
                exitCodeFinal] at hm2
              split at hm2 <;> omega
            · simp [mainTail, baselineStep, scanTail, ht, hp, hb, hts]
          · by_cases hr : env.baselineReadable
            · by_cases hf : args.outputFormat ∈ env.baselineFormatters
              · by_cases hts : env.testsAfterDiscovery
                · exfalso
                  simp [mainTail, baselineStep, scanTail, ht, hp, hb, hr, hf, hts,
                    exitCodeFinal] at hm2
                  split at hm2 <;> omega
                · simp [mainTail, baselineStep, scanTail, ht, hp, hb, hr, hf, hts]
              · simp [mainTail, baselineStep, ht, hp, hb, hr, hf]
            · simp [mainTail, baselineStep, ht, hp, hb, hr]
        · simp [mainTail, ht, hp]
    cases ini_result with
    | usageError ps => simp [runMain]
    | adopted p =>
      have hm2 : Event.exit 2 ∈ mainTail env args := by
        simpa [runMain] using h2
      simpa [runMain] using hmt hm2
    | noIni =>
      have hm2 : Event.exit 2 ∈ mainTail env args := by
        simpa [runMain] using h2
      simpa [runMain] using hmt hm2

/-- C8 witness: the amended baseline gate evaluated at a concrete run with
baseline "b.json" and format "txt" outside the capable set \x7b"json"\x7d. -/
theorem c8_baseline_gate_witness :
    runMain ⟨true, true, ["json"], true, 0⟩
        ⟨["t"], some "b.json", "txt", false⟩ IniResult.noIni
      = [Event.iniDiscovery, Event.profileResolve, Event.baselineRead,
         Event.baselineFormatCheck, Event.exit 2] :=
  (c8_baseline_gate ⟨true, true, ["json"], true, 0⟩
      ⟨["t"], some "b.json", "txt", false⟩ IniResult.noIni).1
    (by decide) (by decide) (by decide) (by decide) (by decide)
    (fun ps => by simp)

/-- C9: the no-line-numbers resolution step passes the baseline path, not
the parsed no-line-numbers flag, as the supplied comparand: the resolved
value is invariant in the no-line-numbers argument, and at concrete inputs
it tracks the baseline argument. -/
theorem c9_no_line_numbers_uses_baseline :
    (∀ baseline ini n n' : Value,
        resolveNoLineNumbers baseline n ini = resolveNoLineNumbers baseline n' ini)
      ∧ resolveNoLineNumbers (Value.str "base.json") (Value.bool true) Value.none
          = Value.str "base.json"
      ∧ resolveNoLineNumbers Value.none (Value.bool true) Value.none = Value.none := by
  exact ⟨fun baseline ini n n' => rfl, by decide, by decide⟩

/-- C10: the claim as stated says the environment variable receives the
resolved no-line-numbers value. At a concrete run with ini options
present, default no-line-numbers and baseline "base.json", the variable
is written with "False" (the raw pre-resolution value) while the resolved
value stringifies to "base.json". -/
theorem c10_env_write_counterexample :
    (noLineNumbersRun (Value.bool false) (Value.str "base.json") true Value.none).1
        = some "False"
      ∧ Value.pyStr
          (noLineNumbersRun (Value.bool false) (Value.str "base.json") true Value.none).2
        = "base.json"
      ∧ (noLineNumbersRun (Value.bool false) (Value.str "base.json") true Value.none).1
        ≠ some (Value.pyStr
            (noLineNumbersRun (Value.bool false) (Value.str "base.json") true Value.none).2) := by
  decide

/-- C10 (amended): on every run whose parsed no-line-numbers value is not
None (argparse never produces None for it), the environment variable is
written, and it receives str() of the raw command-line value as parsed
BEFORE ini resolution; the later resolution does not touch it. -/
theorem c10_env_write_raw_value (no_line_numbers baseline : Value) (ini_present : Bool)
    (ini_no_line_numbers : Value) (h : no_line_numbers ≠ Value.none) :
    (noLineNumbersRun no_line_numbers baseline ini_present ini_no_line_numbers).1
      = some no_line_numbers.pyStr := by
  simp [noLineNumbersRun, banditNoLinesEnvWrite, h]

/-- C10 witness: the amended environment-write fact at the defaulted
parsed value False, with ini options present. -/
theorem c10_env_write_raw_value_witness :
    (noLineNumbersRun (Value.bool false) (Value.str "b.json") true Value.none).1
      = some (Value.bool false).pyStr :=
  c10_env_write_raw_value (Value.bool false) (Value.str "b.json") true Value.none
    (by decide)

end BanditCli
